import Mathlib

/-!
Verification development for the browser video re-framing tool
(src/components/VideoEditor.tsx plus the shared type definitions).
The TypeScript is shallowly embedded: numbers become rationals,
optional values become Option, the DOM canvas becomes an explicit
paint-operation log, and the asynchronous export orchestration is
modelled as explicit state passing with a trace of the processing
states it publishes.
-/

/-- States of the export orchestrator, from enum ProcessingState. -/
inductive ProcessingState
  | IDLE
  | GENERATING_BACKGROUND
  | RECORDING
  | COMPLETED
  | ERROR
  deriving DecidableEq, Repr

/-- Aspect presets, from enum AspectRatio (SQUARE is 1:1, PORTRAIT 9:16,
LANDSCAPE 16:9, CLASSIC 4:3, VERTICAL_4_5 4:5, plus CUSTOM). -/
inductive AspectMode
  | SQUARE
  | PORTRAIT
  | LANDSCAPE
  | CLASSIC
  | VERTICAL_4_5
  | CUSTOM
  deriving DecidableEq, Repr

/-- Fit strategies, from enum ScaleMode. -/
inductive ScaleMode
  | CONTAIN
  | STRETCH
  | COVER
  deriving DecidableEq, Repr

/-- Width and height pair, from interface Dimensions. -/
structure Dimensions where
  width : ℚ
  height : ℚ
  deriving DecidableEq, Repr

/-- User configuration, from interface VideoConfig.  The optional custom
dimensions model the TypeScript fields customWidth and customHeight
(number or undefined); keepAspect models the maintainAspectRatio flag. -/
structure VideoConfig where
  aspectMode : AspectMode
  scaleMode : ScaleMode
  backgroundColor : String
  useAIBackground : Bool
  aiPrompt : String
  customWidth : Option ℚ
  customHeight : Option ℚ
  keepAspect : Bool
  deriving DecidableEq, Repr

/-- Preset resolution table, from the RESOLUTIONS record.  The record has
no entry for the CUSTOM key, hence the Option result. -/
def RESOLUTIONS : AspectMode → Option Dimensions
  | AspectMode.SQUARE => some ⟨1080, 1080⟩
  | AspectMode.PORTRAIT => some ⟨1080, 1920⟩
  | AspectMode.LANDSCAPE => some ⟨1920, 1080⟩
  | AspectMode.CLASSIC => some ⟨1440, 1080⟩
  | AspectMode.VERTICAL_4_5 => some ⟨1080, 1350⟩
  | AspectMode.CUSTOM => none

/-- JavaScript  x || d  on an optional number: undefined and 0 are falsy
and yield the default, every other number (negative or fractional
included) is truthy and is returned unchanged. -/
def jsOr : Option ℚ → ℚ → ℚ
  | none, d => d
  | some x, d => if x = 0 then d else x

/-- Effective output dimensions, from getTargetDimensions: for CUSTOM it
is customWidth || 1920 by customHeight || 1080, otherwise the preset
table entry (always present for the non-custom keys; getD is never
reached with the dummy). -/
def getTargetDimensions (cfg : VideoConfig) : Dimensions :=
  match cfg.aspectMode with
  | AspectMode.CUSTOM => ⟨jsOr cfg.customWidth 1920, jsOr cfg.customHeight 1080⟩
  | a => (RESOLUTIONS a).getD ⟨0, 0⟩

/-- JavaScript Math.round: round half away from zero upward, i.e. the
floor of q + 1/2 (so Math.round of -0.5 is 0 and of 0.5 is 1). -/
def jsRound (q : ℚ) : ℤ := ⌊q + 1 / 2⌋

/-- Which custom dimension an input-field edit targets. -/
inductive Dim
  | width
  | height
  deriving DecidableEq, Repr

/-- Custom dimension edit with aspect lock, from
handleCustomDimensionChange.  The input is the result of Number(value):
none models NaN (non-numeric text), in which case the handler returns
without calling onConfigChange, so the configuration is unchanged.
videoW and videoH are the source dimensions of videoRef.current and
hasVideo models that ref being non-null. -/
def handleCustomDimensionChange (dim : Dim) (value : Option ℚ)
    (videoW videoH : ℚ) (hasVideo : Bool) (cfg : VideoConfig) : VideoConfig :=
  match value with
  | none => cfg
  | some numericValue =>
    let newConfig :=
      match dim with
      | Dim.width => { cfg with customWidth := some numericValue }
      | Dim.height => { cfg with customHeight := some numericValue }
    if cfg.keepAspect = true ∧ hasVideo = true then
      let r := videoW / videoH
      match dim with
      | Dim.width =>
          { newConfig with customHeight := some ((jsRound (numericValue / r) : ℤ) : ℚ) }
      | Dim.height =>
          { newConfig with customWidth := some ((jsRound (numericValue * r) : ℤ) : ℚ) }
    else newConfig

/-- Foreground draw rectangle: width, height and top-left corner. -/
structure DrawRect where
  w : ℚ
  h : ℚ
  x : ℚ
  y : ℚ
  deriving DecidableEq, Repr

/-- COVER branch of drawFrame: scale is the max of the two axis ratios,
the scaled source is centered on the target. -/
def coverRect (srcW srcH tw th : ℚ) : DrawRect :=
  let scale := max (tw / srcW) (th / srcH)
  let w := srcW * scale
  let h := srcH * scale
  ⟨w, h, (tw - w) / 2, (th - h) / 2⟩

/-- CONTAIN branch of drawFrame: scale is the min of the two axis
ratios, the scaled source is centered on the target. -/
def containRect (srcW srcH tw th : ℚ) : DrawRect :=
  let scale := min (tw / srcW) (th / srcH)
  let w := srcW * scale
  let h := srcH * scale
  ⟨w, h, (tw - w) / 2, (th - h) / 2⟩

/-- Canvas 2d shadow configuration (shadowColor, shadowBlur,
shadowOffsetX, shadowOffsetY). -/
structure ShadowState where
  color : String
  blur : ℚ
  offsetX : ℚ
  offsetY : ℚ
  deriving DecidableEq, Repr

/-- The shadow values drawFrame writes back before returning. -/
def resetShadow : ShadowState := ⟨"transparent", 0, 0, 0⟩

/-- Fill styles used by drawFrame: an opaque color-picker hex string, or
an rgba() string with an explicit alpha component. -/
inductive FillStyle
  | color (hex : String)
  | rgba (r g b : ℕ) (a : ℚ)
  deriving DecidableEq, Repr

/-- Whether a fill style overwrites what is beneath it: the hex colors
produced by the color input have no alpha channel, rgba() is opaque only
when its alpha is at least 1. -/
def FillStyle.covers : FillStyle → Bool
  | FillStyle.color _ => true
  | FillStyle.rgba _ _ _ a => decide (1 ≤ a)

/-- The two image sources drawFrame paints: the hidden source video
element and the optional AI background image. -/
inductive DrawSrc
  | video
  | bgImage
  deriving DecidableEq, Repr

/-- One recorded canvas paint primitive, together with the shadow
configuration in effect when it executed (shadows affect pixels). -/
inductive PaintOp
  | fill (x y w h : ℚ) (style : FillStyle) (shadow : ShadowState)
  | image (src : DrawSrc) (x y w h : ℚ) (shadow : ShadowState)
  deriving DecidableEq, Repr

/-- Canvas model: fixed pixel dimensions, the list of paint operations
that determine the current pixels (everything since the last full-canvas
opaque overwrite), and the current shadow configuration. -/
structure Canvas where
  width : ℚ
  height : ℚ
  ops : List PaintOp
  shadow : ShadowState
  deriving DecidableEq, Repr

/-- ctx.fillRect.  When the rectangle covers the whole canvas and the
style is opaque, every pixel is overwritten, so the operation log
restarts at this fill; otherwise the fill is appended. -/
def Canvas.fillRect (c : Canvas) (x y w h : ℚ) (style : FillStyle) : Canvas :=
  let op := PaintOp.fill x y w h style c.shadow
  { c with ops :=
      if style.covers = true ∧ x ≤ 0 ∧ y ≤ 0 ∧ c.width ≤ x + w ∧ c.height ≤ y + h then
        [op]
      else
        c.ops ++ [op] }

/-- ctx.drawImage: appended to the operation log with the current
shadow configuration. -/
def Canvas.drawImage (c : Canvas) (src : DrawSrc) (x y w h : ℚ) : Canvas :=
  { c with ops := c.ops ++ [PaintOp.image src x y w h c.shadow] }

/-- Assignment to the four ctx.shadow fields. -/
def Canvas.setShadow (c : Canvas) (s : ShadowState) : Canvas :=
  { c with shadow := s }

/-- The per-frame compositor, from drawFrame: clear with the background
color; under CONTAIN paint the AI background image cover-scaled with a
0.3-alpha dark overlay, or repeat the solid background fill; compute the
foreground rectangle per scale mode (setting the drop shadow in the
CONTAIN branch); draw the video frame; reset the shadow state. -/
def drawFrame (cfg : VideoConfig) (videoW videoH : ℚ)
    (aiBgImage : Option (ℚ × ℚ)) (c : Canvas) : Canvas :=
  let targetDim := getTargetDimensions cfg
  let c := c.fillRect 0 0 targetDim.width targetDim.height
    (FillStyle.color cfg.backgroundColor)
  let c :=
    if cfg.scaleMode = ScaleMode.CONTAIN then
      match cfg.useAIBackground, aiBgImage with
      | true, some (iw, ih) =>
        let scale := max (targetDim.width / iw) (targetDim.height / ih)
        let x := targetDim.width / 2 - iw / 2 * scale
        let y := targetDim.height / 2 - ih / 2 * scale
        let c := c.drawImage DrawSrc.bgImage x y (iw * scale) (ih * scale)
        c.fillRect 0 0 targetDim.width targetDim.height (FillStyle.rgba 0 0 0 (3 / 10))
      | _, _ =>
        c.fillRect 0 0 targetDim.width targetDim.height
          (FillStyle.color cfg.backgroundColor)
    else c
  let rect :=
    match cfg.scaleMode with
    | ScaleMode.STRETCH => DrawRect.mk targetDim.width targetDim.height 0 0
    | ScaleMode.COVER => coverRect videoW videoH targetDim.width targetDim.height
    | ScaleMode.CONTAIN => containRect videoW videoH targetDim.width targetDim.height
  let c :=
    if cfg.scaleMode = ScaleMode.CONTAIN then
      c.setShadow ⟨"rgba(0, 0, 0, 0.5)", 20, 0, 10⟩
    else c
  let c := c.drawImage DrawSrc.video rect.x rect.y rect.w rect.h
  c.setShadow resetShadow

/-- Component state the export orchestration reads and writes:
processingState, progress, downloadUrl (modelled by the finalized blob
size behind the object URL), errorMsg, the decoded AI background image
(modelled by its dimensions) and the isPlaying flag. -/
structure OrchState where
  processingState : ProcessingState
  progress : ℚ
  downloadUrl : Option ℕ
  errorMsg : Option String
  aiBgImage : Option (ℚ × ℚ)
  isPlaying : Bool
  deriving DecidableEq, Repr

/-- JavaScript String.prototype.trim: drop whitespace from both ends
(structural on the character list). -/
def jsTrim (s : String) : String :=
  ⟨(((s.data.dropWhile Char.isWhitespace).reverse.dropWhile Char.isWhitespace).reverse)⟩

/-- The message generateAIBackground surfaces when generation fails. -/
def bgFailMsg : String := "Failed to generate background. Check API Key or try again."

/-- AI background generation, from generateAIBackground.  The external
generateBackgroundImage call is modelled by its outcome gen (ok with the
decoded image dimensions, or error).  Returns the new state and the
trace of processingState values published, in order.  A blank prompt
(jsTrim empty) returns immediately. -/
def generateAIBackground (cfg : VideoConfig) (gen : Except Unit (ℚ × ℚ))
    (s : OrchState) : OrchState × List ProcessingState :=
  if jsTrim cfg.aiPrompt = "" then (s, [])
  else
    let s1 := { s with processingState := ProcessingState.GENERATING_BACKGROUND,
                       errorMsg := none }
    match gen with
    | Except.ok img =>
        ({ s1 with aiBgImage := some img, processingState := ProcessingState.IDLE },
         [ProcessingState.GENERATING_BACKGROUND, ProcessingState.IDLE])
    | Except.error _ =>
        ({ s1 with errorMsg := some bgFailMsg, processingState := ProcessingState.IDLE },
         [ProcessingState.GENERATING_BACKGROUND, ProcessingState.IDLE])

/-- Export start, from startProcessing, modelled up to the point the
recorder session is opened and capture begins (the asynchronous frame
pump and the onstop finalizer are modelled separately).  Mirrors the
source order: stop preview playback; when CONTAIN with an AI background
requested, no image yet decoded and a truthy prompt, await
generateAIBackground; then unconditionally publish RECORDING, clear the
previous artifact, reset progress to 0 and clear the error message. -/
def startProcessing (cfg : VideoConfig) (gen : Except Unit (ℚ × ℚ))
    (s : OrchState) : OrchState × List ProcessingState :=
  let s0 := { s with isPlaying := false }
  let p :=
    if cfg.scaleMode = ScaleMode.CONTAIN ∧ cfg.useAIBackground = true
        ∧ s0.aiBgImage = none ∧ cfg.aiPrompt ≠ "" then
      generateAIBackground cfg gen s0
    else (s0, [])
  ({ p.1 with processingState := ProcessingState.RECORDING,
              downloadUrl := none, progress := 0, errorMsg := none },
   p.2 ++ [ProcessingState.RECORDING])

/-- The only caller of startProcessing is the main action button, which
is replaced by the download anchor when the state is COMPLETED with an
artifact and carries the attribute disabled when processingState is not
IDLE; a disabled button fires no click.  So a user click reaches
startProcessing exactly when the state is IDLE. -/
def startExportClick (cfg : VideoConfig) (gen : Except Unit (ℚ × ℚ))
    (s : OrchState) : OrchState × List ProcessingState :=
  if s.processingState = ProcessingState.IDLE then startProcessing cfg gen s
  else (s, [])

/-- Progress computation published by the render loop, from renderLoop:
pct is mediaTime divided by the video duration, times 100.  No clamping
is applied in the source. -/
def renderLoopPct (mediaTime duration : ℚ) : ℚ := mediaTime / duration * 100

/-- Modelled from the spec: progress computed as currentSourceTime over
totalDuration clamped to the interval from 0 to 1 before being published
as a percentage.  Stated for comparison with renderLoopPct; no such
clamp exists in the source. -/
def clampedPct (mediaTime duration : ℚ) : ℚ :=
  min 1 (max 0 (mediaTime / duration)) * 100

/-- Source media element state the finalizer touches. -/
structure VideoState where
  currentTime : ℚ
  duration : ℚ
  volume : ℚ
  muted : Bool
  deriving DecidableEq, Repr

/-- The message the finalizer surfaces for an empty artifact. -/
def zeroByteMsg : String := "Recording failed (0 bytes). Try a different browser or file."

/-- Recorder finalizer, from mediaRecorder.onstop.  size is the byte
size of the blob assembled from the recorded chunks; savedVolume and
savedMuted are the user-chosen volume and mute captured in the component
state before the export lowered them for capture.  A zero-byte blob
surfaces an error and returns to IDLE without publishing an artifact;
otherwise the artifact is published, the state becomes COMPLETED, and
the video is reparked at its midpoint with the user volume and mute
restored. -/
def onstop (size : ℕ) (savedVolume : ℚ) (savedMuted : Bool)
    (s : OrchState) (v : VideoState) : OrchState × VideoState :=
  if size = 0 then
    ({ s with errorMsg := some zeroByteMsg, processingState := ProcessingState.IDLE }, v)
  else
    ({ s with downloadUrl := some size, processingState := ProcessingState.COMPLETED,
              isPlaying := false },
     { v with currentTime := v.duration / 2, volume := savedVolume, muted := savedMuted })

/-- Concrete configuration used on witnesses and counterexamples:
CONTAIN fit with an AI background requested and the default prompt, the
aspect lock enabled (the App initial configuration with useAIBackground
switched on and PORTRAIT selected). -/
def cfgContainAI : VideoConfig :=
  { aspectMode := AspectMode.PORTRAIT
    scaleMode := ScaleMode.CONTAIN
    backgroundColor := "#000000"
    useAIBackground := true
    aiPrompt := "Cosmic nebula with purple and blue hues"
    customWidth := some 1920
    customHeight := some 1080
    keepAspect := true }

/-- Same configuration with a negative custom width under the CUSTOM
preset, reachable through the numeric input field. -/
def cfgNegCustom : VideoConfig :=
  { cfgContainAI with aspectMode := AspectMode.CUSTOM, customWidth := some (-5) }

/-- Fresh component state: idle, no artifact, no error, no image. -/
def idleState : OrchState :=
  ⟨ProcessingState.IDLE, 0, none, none, none, false⟩

/-- Component state after a finished export holding an artifact. -/
def completedState : OrchState :=
  ⟨ProcessingState.COMPLETED, 100, some 5, none, none, false⟩

/-- Component state while a capture session is running. -/
def recordingState : OrchState :=
  ⟨ProcessingState.RECORDING, 100, none, none, none, false⟩

/-- Source element at end of a 10 second stream, capture volume 1/100,
having been parked at position 0 before the export started. -/
def videoAtEnd : VideoState := ⟨10, 10, 1 / 100, false⟩

/-- Blank canvas sized for the PORTRAIT preset with clean shadows. -/
def canvasPortrait : Canvas := ⟨1080, 1920, [], resetShadow⟩

/-- C4: in COVER mode the compositor uses scale equal to the max of the
two target-over-source axis ratios; the draw rectangle is centered on
the target and covers it on both axes (w at least target width, h at
least target height); in particular source 1920 by 1080 onto target
1080 by 1080 gives scale 1 and x equal to -420. -/
theorem coverRect_covers_and_centered (srcW srcH tw th : ℚ)
    (hsw : 0 < srcW) (hsh : 0 < srcH) (htw : 0 < tw) (hth : 0 < th) :
    (coverRect srcW srcH tw th).w = srcW * max (tw / srcW) (th / srcH) ∧
    (coverRect srcW srcH tw th).h = srcH * max (tw / srcW) (th / srcH) ∧
    tw ≤ (coverRect srcW srcH tw th).w ∧
    th ≤ (coverRect srcW srcH tw th).h ∧
    (coverRect srcW srcH tw th).x = (tw - (coverRect srcW srcH tw th).w) / 2 ∧
    (coverRect srcW srcH tw th).y = (th - (coverRect srcW srcH tw th).h) / 2 ∧
    coverRect 1920 1080 1080 1080 = ⟨1920, 1080, -420, 0⟩ ∧
    max ((1080 : ℚ) / 1920) ((1080 : ℚ) / 1080) = 1 := by
  refine ⟨rfl, rfl, ?_, ?_, rfl, rfl, by norm_num [coverRect, max_def], by norm_num [max_def]⟩
  · have h1 : tw / srcW ≤ max (tw / srcW) (th / srcH) := le_max_left _ _
    have h2 := mul_le_mul_of_nonneg_left h1 hsw.le
    rw [mul_div_cancel₀ _ (ne_of_gt hsw)] at h2
    exact h2
  · have h1 : th / srcH ≤ max (tw / srcW) (th / srcH) := le_max_right _ _
    have h2 := mul_le_mul_of_nonneg_left h1 hsh.le
    rw [mul_div_cancel₀ _ (ne_of_gt hsh)] at h2
    exact h2

/-- Witness for coverRect_covers_and_centered at source 1920 by 1080 and
target 1080 by 1080. -/
theorem coverRect_covers_and_centered_w :
    (0 : ℚ) < 1920 ∧ (0 : ℚ) < 1080 ∧
    ((coverRect 1920 1080 1080 1080).w = 1920 * max ((1080 : ℚ) / 1920) ((1080 : ℚ) / 1080) ∧
     (coverRect 1920 1080 1080 1080).h = 1080 * max ((1080 : ℚ) / 1920) ((1080 : ℚ) / 1080) ∧
     (1080 : ℚ) ≤ (coverRect 1920 1080 1080 1080).w ∧
     (1080 : ℚ) ≤ (coverRect 1920 1080 1080 1080).h ∧
     (coverRect 1920 1080 1080 1080).x = (1080 - (coverRect 1920 1080 1080 1080).w) / 2 ∧
     (coverRect 1920 1080 1080 1080).y = (1080 - (coverRect 1920 1080 1080 1080).h) / 2 ∧
     coverRect 1920 1080 1080 1080 = ⟨1920, 1080, -420, 0⟩ ∧
     max ((1080 : ℚ) / 1920) ((1080 : ℚ) / 1080) = 1) :=
  ⟨by norm_num, by norm_num,
   coverRect_covers_and_centered 1920 1080 1080 1080
     (by norm_num) (by norm_num) (by norm_num) (by norm_num)⟩

/-- C5: in CONTAIN mode the compositor uses scale equal to the min of
the two target-over-source axis ratios; the draw rectangle is centered
on the target and fits within it on both axes (w at most target width,
h at most target height, x and y nonnegative). -/
theorem containRect_fits_and_centered (srcW srcH tw th : ℚ)
    (hsw : 0 < srcW) (hsh : 0 < srcH) (htw : 0 < tw) (hth : 0 < th) :
    (containRect srcW srcH tw th).w = srcW * min (tw / srcW) (th / srcH) ∧
    (containRect srcW srcH tw th).h = srcH * min (tw / srcW) (th / srcH) ∧
    (containRect srcW srcH tw th).w ≤ tw ∧
    (containRect srcW srcH tw th).h ≤ th ∧
    (containRect srcW srcH tw th).x = (tw - (containRect srcW srcH tw th).w) / 2 ∧
    (containRect srcW srcH tw th).y = (th - (containRect srcW srcH tw th).h) / 2 ∧
    0 ≤ (containRect srcW srcH tw th).x ∧
    0 ≤ (containRect srcW srcH tw th).y := by
  have hw : (containRect srcW srcH tw th).w ≤ tw := by
    have h1 : min (tw / srcW) (th / srcH) ≤ tw / srcW := min_le_left _ _
    have h2 := mul_le_mul_of_nonneg_left h1 hsw.le
    rw [mul_div_cancel₀ _ (ne_of_gt hsw)] at h2
    exact h2
  have hh : (containRect srcW srcH tw th).h ≤ th := by
    have h1 : min (tw / srcW) (th / srcH) ≤ th / srcH := min_le_right _ _
    have h2 := mul_le_mul_of_nonneg_left h1 hsh.le
    rw [mul_div_cancel₀ _ (ne_of_gt hsh)] at h2
    exact h2
  have hx : (containRect srcW srcH tw th).x = (tw - (containRect srcW srcH tw th).w) / 2 := rfl
  have hy : (containRect srcW srcH tw th).y = (th - (containRect srcW srcH tw th).h) / 2 := rfl
  refine ⟨rfl, rfl, hw, hh, hx, hy, ?_, ?_⟩
  · rw [hx]; linarith
  · rw [hy]; linarith

/-- Witness for containRect_fits_and_centered at source 1920 by 1080
and target 1080 by 1920. -/
theorem containRect_fits_and_centered_w :
    (0 : ℚ) < 1920 ∧ (0 : ℚ) < 1080 ∧
    ((containRect 1920 1080 1080 1920).w = 1920 * min ((1080 : ℚ) / 1920) ((1920 : ℚ) / 1080) ∧
     (containRect 1920 1080 1080 1920).h = 1080 * min ((1080 : ℚ) / 1920) ((1920 : ℚ) / 1080) ∧
     (containRect 1920 1080 1080 1920).w ≤ 1080 ∧
     (containRect 1920 1080 1080 1920).h ≤ 1920 ∧
     (containRect 1920 1080 1080 1920).x = (1080 - (containRect 1920 1080 1080 1920).w) / 2 ∧
     (containRect 1920 1080 1080 1920).y = (1920 - (containRect 1920 1080 1080 1920).h) / 2 ∧
     0 ≤ (containRect 1920 1080 1080 1920).x ∧
     0 ≤ (containRect 1920 1080 1080 1920).y) :=
  ⟨by norm_num, by norm_num,
   containRect_fits_and_centered 1920 1080 1080 1920
     (by norm_num) (by norm_num) (by norm_num) (by norm_num)⟩

/-- C6 counterexample: with the aspect lock enabled and a source of 4000
by 1000 pixels (ratio 4), changing the custom width to 1 derives the
custom height round(1/4) = 0, which is not a positive integer, refuting
the claim that both derived values remain positive. -/
theorem handleCustomDimensionChange_zero_height_cex :
    (handleCustomDimensionChange Dim.width (some 1) 4000 1000 true cfgContainAI).customHeight
      = some 0 ∧ ¬ (0 : ℚ) < 0 := by
  constructor
  · norm_num [handleCustomDimensionChange, cfgContainAI, jsRound]
  · norm_num

/-- C6 amended: with the lock enabled and positive source dimensions,
changing the width to w derives height round(w divided by the source
ratio) and changing the height to h derives width round(h times the
source ratio); each derived value is an integer (an integer cast) and is
nonnegative whenever the entered value is nonnegative, though not
necessarily positive; a non-numeric entry (Number gives NaN) leaves the
configuration unchanged. -/
theorem handleCustomDimensionChange_lock (cfg : VideoConfig) (wv hv videoW videoH : ℚ)
    (hlock : cfg.keepAspect = true) (hvw : 0 < videoW) (hvh : 0 < videoH) :
    (handleCustomDimensionChange Dim.width (some wv) videoW videoH true cfg).customHeight
      = some ((jsRound (wv / (videoW / videoH)) : ℤ) : ℚ) ∧
    (handleCustomDimensionChange Dim.width (some wv) videoW videoH true cfg).customWidth
      = some wv ∧
    (handleCustomDimensionChange Dim.height (some hv) videoW videoH true cfg).customWidth
      = some ((jsRound (hv * (videoW / videoH)) : ℤ) : ℚ) ∧
    (handleCustomDimensionChange Dim.height (some hv) videoW videoH true cfg).customHeight
      = some hv ∧
    (0 ≤ wv → 0 ≤ jsRound (wv / (videoW / videoH))) ∧
    (0 ≤ hv → 0 ≤ jsRound (hv * (videoW / videoH))) ∧
    handleCustomDimensionChange Dim.width none videoW videoH true cfg = cfg ∧
    handleCustomDimensionChange Dim.height none videoW videoH true cfg = cfg := by
  have hr : (0 : ℚ) ≤ videoW / videoH := le_of_lt (div_pos hvw hvh)
  refine ⟨?_, ?_, ?_, ?_, ?_, ?_, rfl, rfl⟩
  · simp [handleCustomDimensionChange, hlock]
  · simp [handleCustomDimensionChange, hlock]
  · simp [handleCustomDimensionChange, hlock]
  · simp [handleCustomDimensionChange, hlock]
  · intro hwv
    have h0 : (0 : ℚ) ≤ wv / (videoW / videoH) := div_nonneg hwv hr
    have : ((0 : ℤ) : ℚ) ≤ wv / (videoW / videoH) + 1 / 2 := by push_cast; linarith
    exact Int.le_floor.mpr this
  · intro hhv
    have h0 : (0 : ℚ) ≤ hv * (videoW / videoH) := mul_nonneg hhv hr
    have : ((0 : ℤ) : ℚ) ≤ hv * (videoW / videoH) + 1 / 2 := by push_cast; linarith
    exact Int.le_floor.mpr this

/-- Witness for handleCustomDimensionChange_lock on the fixture
configuration with a 1920 by 1080 source. -/
theorem handleCustomDimensionChange_lock_w :
    cfgContainAI.keepAspect = true ∧ (0 : ℚ) < 1920 ∧ (0 : ℚ) < 1080 ∧
    ((handleCustomDimensionChange Dim.width (some 540) 1920 1080 true cfgContainAI).customHeight
       = some ((jsRound ((540 : ℚ) / (1920 / 1080)) : ℤ) : ℚ) ∧
     (handleCustomDimensionChange Dim.width (some 540) 1920 1080 true cfgContainAI).customWidth
       = some 540 ∧
     (handleCustomDimensionChange Dim.height (some 540) 1920 1080 true cfgContainAI).customWidth
       = some ((jsRound ((540 : ℚ) * (1920 / 1080)) : ℤ) : ℚ) ∧
     (handleCustomDimensionChange Dim.height (some 540) 1920 1080 true cfgContainAI).customHeight
       = some 540 ∧
     ((0 : ℚ) ≤ 540 → 0 ≤ jsRound ((540 : ℚ) / (1920 / 1080))) ∧
     ((0 : ℚ) ≤ 540 → 0 ≤ jsRound ((540 : ℚ) * (1920 / 1080))) ∧
     handleCustomDimensionChange Dim.width none 1920 1080 true cfgContainAI = cfgContainAI ∧
     handleCustomDimensionChange Dim.height none 1920 1080 true cfgContainAI = cfgContainAI) :=
  ⟨rfl, by norm_num, by norm_num,
   handleCustomDimensionChange_lock cfgContainAI 540 540 1920 1080 rfl
     (by norm_num) (by norm_num)⟩

/-- C10 counterexample: a negative custom width is truthy in JavaScript,
so customWidth || 1920 passes it through and the returned target width
is -5, refuting positivity for every configuration. -/
theorem getTargetDimensions_neg_cex :
    (getTargetDimensions cfgNegCustom).width = -5 ∧
    ¬ 0 < (getTargetDimensions cfgNegCustom).width := by
  constructor
  · norm_num [getTargetDimensions, cfgNegCustom, cfgContainAI, jsOr]
  · norm_num [getTargetDimensions, cfgNegCustom, cfgContainAI, jsOr]

/-- Helper: the JavaScript default fallback is positive when the stored
value is nonnegative or absent and the default is positive. -/
theorem jsOr_pos (o : Option ℚ) (d : ℚ) (ho : ∀ q ∈ o, 0 ≤ q) (hd : 0 < d) :
    0 < jsOr o d := by
  cases o with
  | none => simpa [jsOr] using hd
  | some q =>
    by_cases hq : q = 0
    · simpa [jsOr, hq] using hd
    · have hq0 : 0 ≤ q := ho q (by simp)
      simpa [jsOr, hq] using lt_of_le_of_ne hq0 (Ne.symm hq)

/-- C10 amended: getTargetDimensions returns positive width and height
for every preset, and under CUSTOM whenever the stored custom values are
nonnegative or undefined (zero and undefined fall back to the 1920 and
1080 defaults); a negative stored custom value is passed through
unchecked and escapes positivity. -/
theorem getTargetDimensions_pos (cfg : VideoConfig)
    (hw : ∀ q ∈ cfg.customWidth, 0 ≤ q) (hh : ∀ q ∈ cfg.customHeight, 0 ≤ q) :
    0 < (getTargetDimensions cfg).width ∧ 0 < (getTargetDimensions cfg).height := by
  cases hmode : cfg.aspectMode <;>
    simp only [getTargetDimensions, hmode, RESOLUTIONS, Option.getD_some]
  case SQUARE => exact ⟨by norm_num, by norm_num⟩
  case PORTRAIT => exact ⟨by norm_num, by norm_num⟩
  case LANDSCAPE => exact ⟨by norm_num, by norm_num⟩
  case CLASSIC => exact ⟨by norm_num, by norm_num⟩
  case VERTICAL_4_5 => exact ⟨by norm_num, by norm_num⟩
  case CUSTOM =>
    exact ⟨jsOr_pos _ _ hw (by norm_num), jsOr_pos _ _ hh (by norm_num)⟩

/-- Witness for getTargetDimensions_pos on the fixture configuration. -/
theorem getTargetDimensions_pos_w :
    (∀ q ∈ cfgContainAI.customWidth, (0 : ℚ) ≤ q) ∧
    (∀ q ∈ cfgContainAI.customHeight, (0 : ℚ) ≤ q) ∧
    (0 < (getTargetDimensions cfgContainAI).width ∧
     0 < (getTargetDimensions cfgContainAI).height) :=
  ⟨by intro q hq; simp [cfgContainAI] at hq; rw [← hq]; norm_num,
   by intro q hq; simp [cfgContainAI] at hq; rw [← hq]; norm_num,
   getTargetDimensions_pos cfgContainAI
     (by intro q hq; simp [cfgContainAI] at hq; rw [← hq]; norm_num)
     (by intro q hq; simp [cfgContainAI] at hq; rw [← hq]; norm_num)⟩

/-- C3 counterexample: the render loop publishes the raw quotient times
100 with no clamp, so at mediaTime 2 over duration 1 it publishes 200,
outside the interval from 0 to 100, while the clamped computation the
claim describes would publish 100; the two computations differ. -/
theorem renderLoopPct_unclamped_cex :
    renderLoopPct 2 1 = 200 ∧ ¬ renderLoopPct 2 1 ≤ 100 ∧
    clampedPct 2 1 = 100 ∧ renderLoopPct 2 1 ≠ clampedPct 2 1 := by
  refine ⟨?_, ?_, ?_, ?_⟩ <;>
    norm_num [renderLoopPct, clampedPct, max_def, min_def]

/-- C3 amended: the published progress is mediaTime over duration times
100 without clamping; for a positive duration it lies in the interval
from 0 to 100 whenever the frame mediaTime lies between 0 and the
duration, and it is monotonically non-decreasing in mediaTime, so the
per-frame sequence of published values is non-decreasing while frame
times are non-decreasing and within the stream. -/
theorem renderLoopPct_bounds_mono (m m' d : ℚ) (hd : 0 < d)
    (hm0 : 0 ≤ m) (hmd : m ≤ d) :
    0 ≤ renderLoopPct m d ∧ renderLoopPct m d ≤ 100 ∧
    (m ≤ m' → renderLoopPct m d ≤ renderLoopPct m' d) := by
  refine ⟨?_, ?_, ?_⟩
  · have h0 : 0 ≤ m / d := div_nonneg hm0 hd.le
    simpa [renderLoopPct] using mul_nonneg h0 (show (0 : ℚ) ≤ 100 by norm_num)
  · have h1 : m / d ≤ 1 := (div_le_one hd).mpr hmd
    have := mul_le_mul_of_nonneg_right h1 (show (0 : ℚ) ≤ 100 by norm_num)
    simpa [renderLoopPct] using this
  · intro hmm
    have h1 : m / d ≤ m' / d := by gcongr
    simpa [renderLoopPct] using
      mul_le_mul_of_nonneg_right h1 (show (0 : ℚ) ≤ 100 by norm_num)

/-- Witness for renderLoopPct_bounds_mono at mediaTime 1 then 2 over
duration 2. -/
theorem renderLoopPct_bounds_mono_w :
    (0 : ℚ) < 2 ∧ (0 : ℚ) ≤ 1 ∧ (1 : ℚ) ≤ 2 ∧
    (0 ≤ renderLoopPct 1 2 ∧ renderLoopPct 1 2 ≤ 100 ∧
     ((1 : ℚ) ≤ 2 → renderLoopPct 1 2 ≤ renderLoopPct 2 2)) :=
  ⟨by norm_num, by norm_num, by norm_num,
   renderLoopPct_bounds_mono 1 2 2 (by norm_num) (by norm_num) (by norm_num)⟩

/-- C1 counterexample: with CONTAIN fit, an AI background requested, no
image available and a non-empty prompt, a failing generation still ends
with the orchestrator in RECORDING: the published state trace is exactly
GENERATING_BACKGROUND, IDLE, RECORDING, and the surfaced error has been
cleared, refuting the claimed abort-before-recording. -/
theorem startProcessing_bgFailure_records_cex :
    (startProcessing cfgContainAI (Except.error ()) idleState).2
      = [ProcessingState.GENERATING_BACKGROUND, ProcessingState.IDLE,
         ProcessingState.RECORDING] ∧
    (startProcessing cfgContainAI (Except.error ()) idleState).1.processingState
      = ProcessingState.RECORDING ∧
    (startProcessing cfgContainAI (Except.error ()) idleState).1.errorMsg = none := by
  decide

/-- C1 amended: under CONTAIN with an AI background requested, no image
yet available and a non-empty prompt, startProcessing synchronously
awaits generation first, passing through GENERATING_BACKGROUND; a
generation failure sets the error message and returns the state to IDLE,
but the export then proceeds into RECORDING anyway, starting capture
with the solid background fallback and clearing the error message. -/
theorem startProcessing_bgFailure_proceeds (cfg : VideoConfig) (s : OrchState)
    (hsm : cfg.scaleMode = ScaleMode.CONTAIN) (hai : cfg.useAIBackground = true)
    (himg : s.aiBgImage = none) (hp : cfg.aiPrompt ≠ "")
    (hpt : jsTrim cfg.aiPrompt ≠ "") :
    (generateAIBackground cfg (Except.error ()) { s with isPlaying := false }).1.errorMsg
      = some bgFailMsg ∧
    (startProcessing cfg (Except.error ()) s).2
      = [ProcessingState.GENERATING_BACKGROUND, ProcessingState.IDLE,
         ProcessingState.RECORDING] ∧
    (startProcessing cfg (Except.error ()) s).1.processingState
      = ProcessingState.RECORDING ∧
    (startProcessing cfg (Except.error ()) s).1.errorMsg = none ∧
    (startProcessing cfg (Except.error ()) s).1.progress = 0 ∧
    (startProcessing cfg (Except.error ()) s).1.downloadUrl = none := by
  refine ⟨?_, ?_, ?_, ?_, ?_, ?_⟩ <;>
    simp [startProcessing, generateAIBackground, hsm, hai, himg, hp, hpt]

/-- Witness for startProcessing_bgFailure_proceeds on the fixture
configuration and the fresh component state. -/
theorem startProcessing_bgFailure_proceeds_w :
    cfgContainAI.scaleMode = ScaleMode.CONTAIN ∧
    cfgContainAI.useAIBackground = true ∧
    idleState.aiBgImage = none ∧
    cfgContainAI.aiPrompt ≠ "" ∧
    jsTrim cfgContainAI.aiPrompt ≠ "" ∧
    ((generateAIBackground cfgContainAI (Except.error ())
        { idleState with isPlaying := false }).1.errorMsg = some bgFailMsg ∧
     (startProcessing cfgContainAI (Except.error ()) idleState).2
       = [ProcessingState.GENERATING_BACKGROUND, ProcessingState.IDLE,
          ProcessingState.RECORDING] ∧
     (startProcessing cfgContainAI (Except.error ()) idleState).1.processingState
       = ProcessingState.RECORDING ∧
     (startProcessing cfgContainAI (Except.error ()) idleState).1.errorMsg = none ∧
     (startProcessing cfgContainAI (Except.error ()) idleState).1.progress = 0 ∧
     (startProcessing cfgContainAI (Except.error ()) idleState).1.downloadUrl = none) :=
  ⟨rfl, rfl, rfl, by decide, by decide,
   startProcessing_bgFailure_proceeds cfgContainAI idleState rfl rfl rfl
     (by decide) (by decide)⟩

/-- C2: a click on the export button while the orchestrator is in any
state other than IDLE is a no-op: the button carries the disabled
attribute (and under COMPLETED with an artifact it is replaced by the
download anchor), so the component state is unchanged, no state is
published, progress is not reset, the previous artifact is kept and no
second capture session begins. -/
theorem startExportClick_nonIdle_noop (cfg : VideoConfig)
    (gen : Except Unit (ℚ × ℚ)) (s : OrchState)
    (h : s.processingState ≠ ProcessingState.IDLE) :
    startExportClick cfg gen s = (s, []) ∧
    (startExportClick cfg gen s).1.progress = s.progress ∧
    (startExportClick cfg gen s).1.downloadUrl = s.downloadUrl ∧
    (startExportClick cfg gen s).2 = [] := by
  refine ⟨?_, ?_, ?_, ?_⟩ <;> simp [startExportClick, h]

/-- Witness for startExportClick_nonIdle_noop on the completed-export
component state. -/
theorem startExportClick_nonIdle_noop_w :
    completedState.processingState ≠ ProcessingState.IDLE ∧
    (startExportClick cfgContainAI (Except.error ()) completedState
       = (completedState, []) ∧
     (startExportClick cfgContainAI (Except.error ()) completedState).1.progress
       = completedState.progress ∧
     (startExportClick cfgContainAI (Except.error ()) completedState).1.downloadUrl
       = completedState.downloadUrl ∧
     (startExportClick cfgContainAI (Except.error ()) completedState).2 = []) :=
  ⟨by decide,
   startExportClick_nonIdle_noop cfgContainAI (Except.error ()) completedState (by decide)⟩

/-- C7: a zero-byte finalized blob is classified as a failure: the
finalizer surfaces the zero-byte error message, returns the state to
IDLE (never COMPLETED), and publishes no artifact, leaving downloadUrl
as the none that startProcessing set at capture start. -/
theorem onstop_zeroByte_failure (vol : ℚ) (m : Bool) (s : OrchState) (v : VideoState)
    (hurl : s.downloadUrl = none) :
    (onstop 0 vol m s v).1.processingState = ProcessingState.IDLE ∧
    (onstop 0 vol m s v).1.processingState ≠ ProcessingState.COMPLETED ∧
    (onstop 0 vol m s v).1.errorMsg = some zeroByteMsg ∧
    (onstop 0 vol m s v).1.downloadUrl = none ∧
    (onstop 0 vol m s v).2 = v := by
  refine ⟨?_, ?_, ?_, ?_, ?_⟩ <;> simp [onstop, hurl]

/-- Witness for onstop_zeroByte_failure on the recording component
state and the end-of-stream video state. -/
theorem onstop_zeroByte_failure_w :
    recordingState.downloadUrl = none ∧
    ((onstop 0 (1 / 100) false recordingState videoAtEnd).1.processingState
       = ProcessingState.IDLE ∧
     (onstop 0 (1 / 100) false recordingState videoAtEnd).1.processingState
       ≠ ProcessingState.COMPLETED ∧
     (onstop 0 (1 / 100) false recordingState videoAtEnd).1.errorMsg = some zeroByteMsg ∧
     (onstop 0 (1 / 100) false recordingState videoAtEnd).1.downloadUrl = none ∧
     (onstop 0 (1 / 100) false recordingState videoAtEnd).2 = videoAtEnd) :=
  ⟨rfl, onstop_zeroByte_failure (1 / 100) false recordingState videoAtEnd rfl⟩

/-- C8 counterexample: the source was parked at position 0 before the
export began (the user had pressed seek-to-start), its duration is 10,
and finalization succeeds with a 5 byte artifact; the finalizer sets the
playback position to 5, the midpoint, not to the pre-export position 0,
refuting the claimed restoration of the pre-export preview position. -/
theorem onstop_success_midpoint_cex :
    (onstop 5 1 false recordingState videoAtEnd).2.currentTime = 5 ∧
    (5 : ℚ) ≠ 0 := by
  constructor
  · norm_num [onstop, recordingState, videoAtEnd]
  · norm_num

/-- C8 amended: on a successful (non-empty) finalization the
orchestrator transitions to COMPLETED and publishes the artifact, and
the source media gets the user-chosen volume and mute restored; the
playback position however is set to the default preview midpoint, half
the duration, regardless of where the preview was parked before the
export started. -/
theorem onstop_success_completed (size : ℕ) (vol : ℚ) (m : Bool)
    (s : OrchState) (v : VideoState) (hsz : size ≠ 0) :
    (onstop size vol m s v).1.processingState = ProcessingState.COMPLETED ∧
    (onstop size vol m s v).1.downloadUrl = some size ∧
    (onstop size vol m s v).1.isPlaying = false ∧
    (onstop size vol m s v).2.volume = vol ∧
    (onstop size vol m s v).2.muted = m ∧
    (onstop size vol m s v).2.currentTime = v.duration / 2 := by
  refine ⟨?_, ?_, ?_, ?_, ?_, ?_⟩ <;> simp [onstop, hsz]

/-- Witness for onstop_success_completed with a 5 byte artifact, volume
1 and mute off. -/
theorem onstop_success_completed_w :
    (5 : ℕ) ≠ 0 ∧
    ((onstop 5 1 false recordingState videoAtEnd).1.processingState
       = ProcessingState.COMPLETED ∧
     (onstop 5 1 false recordingState videoAtEnd).1.downloadUrl = some 5 ∧
     (onstop 5 1 false recordingState videoAtEnd).1.isPlaying = false ∧
     (onstop 5 1 false recordingState videoAtEnd).2.volume = 1 ∧
     (onstop 5 1 false recordingState videoAtEnd).2.muted = false ∧
     (onstop 5 1 false recordingState videoAtEnd).2.currentTime = videoAtEnd.duration / 2) :=
  ⟨by decide, onstop_success_completed 5 1 false recordingState videoAtEnd (by decide)⟩

/-- Helper: fillRect leaves the canvas width unchanged. -/
theorem Canvas.fillRect_width (c : Canvas) (x y w h : ℚ) (st : FillStyle) :
    (c.fillRect x y w h st).width = c.width := rfl

/-- Helper: fillRect leaves the canvas height unchanged. -/
theorem Canvas.fillRect_height (c : Canvas) (x y w h : ℚ) (st : FillStyle) :
    (c.fillRect x y w h st).height = c.height := rfl

/-- Helper: fillRect leaves the shadow configuration unchanged. -/
theorem Canvas.fillRect_shadow (c : Canvas) (x y w h : ℚ) (st : FillStyle) :
    (c.fillRect x y w h st).shadow = c.shadow := rfl

/-- Helper: drawFrame preserves the canvas dimensions and always leaves
the shadow configuration reset (the final ctx shadow writes). -/
theorem drawFrame_fields (cfg : VideoConfig) (vW vH : ℚ) (bg : Option (ℚ × ℚ))
    (c : Canvas) :
    (drawFrame cfg vW vH bg c).width = c.width ∧
    (drawFrame cfg vW vH bg c).height = c.height ∧
    (drawFrame cfg vW vH bg c).shadow = resetShadow := by
  refine ⟨?_, ?_, ?_⟩ <;>
    · simp only [drawFrame]
      repeat' split
      all_goals rfl

/-- Helper: the output of drawFrame does not depend on the paint
operations already on the canvas, provided the canvas is no larger than
the target (the initial background fill then overwrites every pixel);
it depends only on the canvas dimensions and incoming shadow state. -/
theorem drawFrame_agrees (cfg : VideoConfig) (vW vH : ℚ) (bg : Option (ℚ × ℚ))
    (c c' : Canvas) (hw : c.width = c'.width) (hh : c.height = c'.height)
    (hs : c.shadow = c'.shadow)
    (hcw : c.width ≤ (getTargetDimensions cfg).width)
    (hch : c.height ≤ (getTargetDimensions cfg).height) :
    drawFrame cfg vW vH bg c = drawFrame cfg vW vH bg c' := by
  obtain ⟨w, h, ops, sh⟩ := c
  obtain ⟨w', h', ops', sh'⟩ := c'
  dsimp only at hw hh hs hcw hch
  subst hw
  subst hh
  subst hs
  have hfill : ∀ o : List PaintOp,
      Canvas.fillRect ⟨w, h, o, sh⟩ 0 0 (getTargetDimensions cfg).width
        (getTargetDimensions cfg).height (FillStyle.color cfg.backgroundColor)
      = ⟨w, h, [PaintOp.fill 0 0 (getTargetDimensions cfg).width
          (getTargetDimensions cfg).height (FillStyle.color cfg.backgroundColor) sh], sh⟩ := by
    intro o
    simp only [Canvas.fillRect]
    rw [if_pos]
    exact ⟨rfl, le_refl 0, le_refl 0, by simpa using hcw, by simpa using hch⟩
  simp only [drawFrame]
  simp only [hfill]

/-- C9: the compositor is idempotent on pixels.  For a canvas whose
dimensions match the configured target and whose shadow state is the
reset state drawFrame itself always leaves behind (the state at every
real call site, since the initial canvas default is also non-painting),
running drawFrame twice with the same source frame, source dimensions
and configuration yields exactly the same canvas as running it once:
the first operation of every call is an opaque full-canvas background
fill that overwrites every pixel, and every call resets the shadow
state before returning, so no drawing state leaks into the next call. -/
theorem drawFrame_idempotent (cfg : VideoConfig) (vW vH : ℚ) (bg : Option (ℚ × ℚ))
    (c : Canvas) (hs : c.shadow = resetShadow)
    (hcw : c.width = (getTargetDimensions cfg).width)
    (hch : c.height = (getTargetDimensions cfg).height) :
    drawFrame cfg vW vH bg (drawFrame cfg vW vH bg c) = drawFrame cfg vW vH bg c := by
  obtain ⟨h1, h2, h3⟩ := drawFrame_fields cfg vW vH bg c
  apply drawFrame_agrees
  · exact h1
  · exact h2
  · rw [h3, hs]
  · rw [h1, hcw]
  · rw [h2, hch]

/-- Witness for drawFrame_idempotent on the fixture configuration, a
1920 by 1080 source frame and the blank PORTRAIT canvas. -/
theorem drawFrame_idempotent_w :
    canvasPortrait.shadow = resetShadow ∧
    canvasPortrait.width = (getTargetDimensions cfgContainAI).width ∧
    canvasPortrait.height = (getTargetDimensions cfgContainAI).height ∧
    drawFrame cfgContainAI 1920 1080 none
        (drawFrame cfgContainAI 1920 1080 none canvasPortrait)
      = drawFrame cfgContainAI 1920 1080 none canvasPortrait :=
  ⟨rfl, rfl, rfl,
   drawFrame_idempotent cfgContainAI 1920 1080 none canvasPortrait rfl rfl rfl⟩
